import Mathlib

/-!
Shallow embedding of the customer microservice (src/src/customer.rs and
src/src/main.rs) and proofs about its validation, update and id-allocation
behaviour.

Modelling conventions:
* Rust `String::len()` (UTF-8 byte length) is `String.utf8ByteSize`.
* `ServiceResult<T>` is `Except ServiceError T`; the transport-level
  `Status` errors raised inside `update_by_id` are folded into the same
  error type, since only the success/failure split matters here.
* `Utc::now()` is an explicit `now : Nat` parameter.
* The tax-number validator (`TaxNumber::new`, an external checksum
  validator per the design) is a parameter
  `validate : String → Except ServiceError TaxNumber`.
* The persisted collection (`VecPack`) is a `List Customer`; a mutation
  through `find_id_mut` becomes replacement of the first element with a
  matching id, mirroring the in-place mutation of the found record.
-/

deriving instance DecidableEq for Except

/-- Rust `str::contains(char)`: the character occurs in the string. -/
def strContains (s : String) (c : Char) : Bool :=
  s.data.contains c

/-- Error taxonomy used by the service (`BadRequest` carries the
human-readable validation message, exactly as in the source). -/
inductive ServiceError where
  | badRequest : String → ServiceError
  | internalError : String → ServiceError
  | notFound : String → ServiceError
deriving DecidableEq, Repr

/-- Invoice address `{zip, location, address}` (customer.rs, `Address`).
The wire-level address carries the same three fields, so the same
structure models both shapes. -/
structure Address where
  zip : String
  location : String
  address : String
deriving DecidableEq, Repr

/-- `Address::new` (customer.rs). -/
def Address.new (zip location address : String) : Address :=
  { zip := zip, location := location, address := address }

/-- A validated tax number. Its internals live outside the given sources
(the validator is external), so it is an opaque wrapper; validation is a
parameter wherever the service calls `TaxNumber::new`. -/
structure TaxNumber where
  raw : String
deriving DecidableEq, Repr

/-- The `Customer` entity (customer.rs). -/
structure Customer where
  id : String
  name : String
  email : String
  phone : String
  tax_number : Option TaxNumber
  address : Address
  date_created : Nat
  created_by : String
  has_user : Bool
  users : List String
deriving DecidableEq, Repr

/-- `Customer::new` (customer.rs lines 131-170): validates the email
(non-empty must contain an `@` and a `.`), then the name length
(bytes in [2, 200]), then builds the record with `has_user = false` and
empty `users`. -/
def Customer.new (id name email phone : String) (tax_number : Option TaxNumber)
    (address : Address) (created_by : String) (now : Nat) :
    Except ServiceError Customer :=
  if 0 < email.utf8ByteSize ∧ (¬ strContains email '@' ∨ ¬ strContains email '.') then
    .error (.badRequest "Nem megfelelő email cím. Legalább @ jelet és pontot kell tartalmaznia")
  else if 200 < name.utf8ByteSize ∨ name.utf8ByteSize < 2 then
    .error (.badRequest "A név hosszúsága legalább 2 max 200 karakter")
  else
    .ok { id := id, name := name, email := email, phone := phone,
          tax_number := tax_number, address := address, date_created := now,
          created_by := created_by, has_user := false, users := [] }

/-- `Customer::set_name` (customer.rs): unconditional. -/
def Customer.set_name (c : Customer) (name : String) : Customer :=
  { c with name := name }

/-- `Customer::set_email` (customer.rs lines 190-203): a non-empty email
must contain `@` and `.` and be longer than 5 bytes; an empty email is
accepted without touching the field. -/
def Customer.set_email (c : Customer) (email : String) :
    Except ServiceError Customer :=
  if 0 < email.utf8ByteSize then
    if strContains email '@' ∧ strContains email '.' ∧ 5 < email.utf8ByteSize then
      .ok { c with email := email }
    else
      .error (.badRequest "Rossz email formátum. Legyen legalább 5 karakter, és tartalmazzon @ jelet és pontot")
  else
    .ok c

/-- `Customer::set_phone` (customer.rs): unconditional. -/
def Customer.set_phone (c : Customer) (phone : String) : Customer :=
  { c with phone := phone }

/-- `Customer::set_tax_number` (customer.rs): unconditional. -/
def Customer.set_tax_number (c : Customer) (t : Option TaxNumber) : Customer :=
  { c with tax_number := t }

/-- `Customer::set_address` (customer.rs): unconditional. -/
def Customer.set_address (c : Customer) (a : Address) : Customer :=
  { c with address := a }

/-- Wire shape of `CreateNewRequest` as used by `create_new_customer`
(main.rs): the address arrives flattened as zip/location/address. -/
structure CreateNewRequest where
  name : String
  email : String
  phone : String
  tax_number : String
  zip : String
  location : String
  address : String
  created_by : String
deriving DecidableEq, Repr

/-- Wire shape of `CustomerUpdateObj` as used by `update_by_id`
(main.rs): the address is an optional message. -/
structure CustomerUpdateObj where
  id : String
  name : String
  email : String
  phone : String
  tax_number : String
  address : Option Address
deriving DecidableEq, Repr

/-- The substrate's `find_id`: the first stored customer with the given
id. -/
def findById (store : List Customer) (id : String) : Option Customer :=
  store.find? (fun c => c.id == id)

/-- `CustomerService::is_id_available` (main.rs lines 106-108): an id is
available iff `find_id` fails on it. -/
def is_id_available (store : List Customer) (id : String) : Bool :=
  (findById store id).isNone

/-- Modelled from the spec: the persisted-collection substrate's keyed
insert, `insert(entity) -> Result<(), DuplicateKey)` — the substrate
(`packman::VecPack`) is outside the given sources; per the spec it
rejects an entity whose key is already present and appends otherwise. -/
def insertCustomer (store : List Customer) (c : Customer) :
    Except ServiceError (List Customer) :=
  if (findById store c.id).isSome then
    .error (.internalError "DuplicateKey")
  else
    .ok (store ++ [c])

/-- The in-place mutation through the substrate's `find_id_mut`:
replace the first stored customer with the given id. -/
def replaceById (store : List Customer) (id : String) (c : Customer) :
    List Customer :=
  match store with
  | [] => []
  | x :: rest =>
      if x.id == id then c :: rest else x :: replaceById rest id c

/-- The tax-number resolution shared by create and update (main.rs
lines 70-73 and 165-168): an empty raw string means no tax number, a
non-empty one goes through the external validator, whose failure is
propagated. -/
def resolveTax (validate : String → Except ServiceError TaxNumber)
    (raw : String) : Except ServiceError (Option TaxNumber) :=
  if 0 < raw.utf8ByteSize then
    match validate raw with
    | .ok t => .ok (some t)
    | .error e => .error e
  else
    .ok none

/-- The id-generation retry loop of `create_new_customer` (main.rs lines
77-82): draw candidates from the random generator (modelled as the list
of its successive outputs) until one is available. The source loops
forever; running out of the modelled candidate list is a fuel artifact. -/
def pickId (store : List Customer) : List String → Option String
  | [] => none
  | c :: rest =>
      if is_id_available store c then some c else pickId store rest

/-- `CustomerService::create_new_customer` (main.rs lines 68-102):
resolve the tax number, pick an available id, validate and build the
customer, insert it into the store. Each failure is propagated with the
store unchanged. -/
def create_new_customer (validate : String → Except ServiceError TaxNumber)
    (candidates : List String) (store : List Customer)
    (u : CreateNewRequest) (now : Nat) :
    List Customer × Except ServiceError Customer :=
  match resolveTax validate u.tax_number with
  | .error e => (store, .error e)
  | .ok taxnumber =>
    match pickId store candidates with
    | none => (store, .error (.internalError "candidate list exhausted"))
    | some id =>
      match Customer.new id u.name u.email u.phone taxnumber
          (Address.new u.zip u.location u.address) u.created_by now with
      | .error e => (store, .error e)
      | .ok new_customer =>
        match insertCustomer store new_customer with
        | .error e => (store, .error e)
        | .ok store2 => (store2, .ok new_customer)

/-- `CustomerService::update_by_id` (main.rs lines 157-196): resolve the
tax number, require an address, find the record, then mutate it through
`set_name`, `set_email` (fallible), `set_phone`, `set_tax_number`,
`set_address` in that order. The found record is mutated in place, so
when `set_email` fails, the `set_name` already applied to it is kept in
the store while the error is returned. -/
def update_by_id (validate : String → Except ServiceError TaxNumber)
    (store : List Customer) (u : CustomerUpdateObj) :
    List Customer × Except ServiceError Customer :=
  match resolveTax validate u.tax_number with
  | .error e => (store, .error e)
  | .ok taxnumber =>
    match u.address with
    | none => (store, .error (.internalError "Missing address from message"))
    | some addr =>
      match findById store u.id with
      | none => (store, .error (.notFound "Customer not found"))
      | some c =>
        let c1 := c.set_name u.name
        match c1.set_email u.email with
        | .error e => (replaceById store u.id c1, .error e)
        | .ok c2 =>
          let c3 := ((c2.set_phone u.phone).set_tax_number taxnumber).set_address
            (Address.new addr.zip addr.location addr.address)
          (replaceById store u.id c3, .ok c3)

/-- The customer produced by a successful `update_by_id` on the stored
record `c`: every field replaced from the request except that an empty
request email leaves the stored email as it was (`set_email` skips it). -/
def updatedCustomer (c : Customer) (u : CustomerUpdateObj)
    (tn : Option TaxNumber) (addr : Address) : Customer :=
  { c with name := u.name,
           email := if 0 < u.email.utf8ByteSize then u.email else c.email,
           phone := u.phone,
           tax_number := tn,
           address := Address.new addr.zip addr.location addr.address }

/-- The id / creation-metadata frame: the new record keeps the old
record's `id`, `date_created` and `created_by`. -/
def frameEq (c c2 : Customer) : Prop :=
  c2.id = c.id ∧ c2.date_created = c.date_created ∧ c2.created_by = c.created_by

/-- A tax-number validator that always fails; used only as a concrete
instantiation where the validator is never reached. -/
def noTax : String → Except ServiceError TaxNumber :=
  fun _ => .error (.badRequest "tax")

/-- A concrete stored customer used in concrete runs. -/
def sampleStored : Customer :=
  { id := "c1", name := "Old Name", email := "old@mail.hu", phone := "1",
    tax_number := none, address := Address.new "z" "l" "a",
    date_created := 5, created_by := "u1", has_user := false, users := [] }

/-!
Interleaving model for concurrent `create_new_customer` calls. Only the
id-allocation part matters here, so the shared store is the list of
stored ids. One application of `stepCreate` is one critical section of
the directory mutex: in the source, `is_id_available` acquires and
releases the lock by itself (main.rs line 107), and the later
`insert` acquires it again (main.rs line 98), so the check and the
insert of one create are two separate `stepCreate` steps between which
the other task's steps may be scheduled.
-/

/-- Progress of one create task through its lock-protected steps:
`run cs` — about to run the availability check on the head candidate
(remaining random draws `cs`); `ins c` — check passed for `c`, about to
run the insert; `fin r` — finished with assigned id `some c`, or `none`
when the create call failed. -/
inductive CPhase where
  | run : List String → CPhase
  | ins : String → CPhase
  | fin : Option String → CPhase
deriving DecidableEq, Repr

/-- One critical section of a create task against the shared id store,
following main.rs: the check takes one lock acquisition, the insert a
separate one; the insert's duplicate-key rejection is the substrate
contract (modelled from the spec, as in `insertCustomer`), and its
failure fails the whole create. Running out of candidates is a fuel
artifact of modelling the endless random stream by a list. -/
def stepCreate : List String → CPhase → List String × CPhase
  | store, .run [] => (store, .fin none)
  | store, .run (c :: rest) =>
      if store.contains c then (store, .run rest) else (store, .ins c)
  | store, .ins c =>
      if store.contains c then (store, .fin none)
      else (store ++ [c], .fin (some c))
  | store, .fin r => (store, .fin r)

/-- Modelled from the spec: design (b) with the availability check and
the insert inside one critical section — a passing check inserts in the
same step. -/
def stepCreateAtomic : List String → CPhase → List String × CPhase
  | store, .run [] => (store, .fin none)
  | store, .run (c :: rest) =>
      if store.contains c then (store, .run rest)
      else (store ++ [c], .fin (some c))
  | store, .ins c => (store, .fin (some c))
  | store, .fin r => (store, .fin r)

/-- Shared store plus the phases of two concurrent create tasks. -/
structure CState where
  store : List String
  a : CPhase
  b : CPhase
deriving DecidableEq, Repr

/-- Schedule one critical section of task `a` (when `first`) or `b`. -/
def cstep (s : CState) (first : Bool) : CState :=
  if first then
    { s with store := (stepCreate s.store s.a).1, a := (stepCreate s.store s.a).2 }
  else
    { s with store := (stepCreate s.store s.b).1, b := (stepCreate s.store s.b).2 }

/-- Run a schedule (the arrival order at the lock) against the two-task
system built on the source's two-critical-section create. -/
def crun : CState → List Bool → CState
  | s, [] => s
  | s, x :: xs => crun (cstep s x) xs

/-- `cstep` for the spec's atomic check-and-insert design. -/
def cstepAtomic (s : CState) (first : Bool) : CState :=
  if first then
    { s with store := (stepCreateAtomic s.store s.a).1,
             a := (stepCreateAtomic s.store s.a).2 }
  else
    { s with store := (stepCreateAtomic s.store s.b).1,
             b := (stepCreateAtomic s.store s.b).2 }

/-- Run a schedule against the spec's atomic design. -/
def crunAtomic : CState → List Bool → CState
  | s, [] => s
  | s, x :: xs => crunAtomic (cstepAtomic s x) xs

/-- Invariant of the two-task system: stored ids stay distinct, a
finished-successful task's id is stored, and two finished-successful
tasks have different ids. -/
def cinv (s : CState) : Prop :=
  s.store.Nodup ∧
  (∀ i, s.a = .fin (some i) → i ∈ s.store) ∧
  (∀ j, s.b = .fin (some j) → j ∈ s.store) ∧
  (∀ i j, s.a = .fin (some i) → s.b = .fin (some j) → i ≠ j)

/-! Helper lemmas (shared across the claim theorems below). -/

theorem set_email_empty (c : Customer) (email : String)
    (h : email.utf8ByteSize = 0) : c.set_email email = .ok c := by
  unfold Customer.set_email
  rw [if_neg (by omega)]

theorem set_email_valid (c : Customer) (email : String)
    (h1 : strContains email '@') (h2 : strContains email '.')
    (h3 : 5 < email.utf8ByteSize) :
    c.set_email email = .ok { c with email := email } := by
  unfold Customer.set_email
  rw [if_pos (by omega), if_pos ⟨h1, h2, h3⟩]

theorem set_email_invalid (c : Customer) (email : String)
    (h0 : 0 < email.utf8ByteSize)
    (h : ¬ (strContains email '@' ∧ strContains email '.' ∧ 5 < email.utf8ByteSize)) :
    c.set_email email =
      .error (.badRequest "Rossz email formátum. Legyen legalább 5 karakter, és tartalmazzon @ jelet és pontot") := by
  unfold Customer.set_email
  rw [if_pos h0, if_neg h]

theorem customer_new_ok (id name email phone : String) (tn : Option TaxNumber)
    (addr : Address) (cb : String) (now : Nat)
    (hemail : email.utf8ByteSize = 0 ∨ (strContains email '@' ∧ strContains email '.'))
    (hmin : 2 ≤ name.utf8ByteSize) (hmax : name.utf8ByteSize ≤ 200) :
    Customer.new id name email phone tn addr cb now =
      .ok { id := id, name := name, email := email, phone := phone,
            tax_number := tn, address := addr, date_created := now,
            created_by := cb, has_user := false, users := [] } := by
  have hE : ¬ (0 < email.utf8ByteSize ∧
      (¬ strContains email '@' ∨ ¬ strContains email '.')) := by
    rcases hemail with h | ⟨h1, h2⟩
    · rintro ⟨hpos, _⟩; omega
    · rintro ⟨_, h | h⟩
      · exact h h1
      · exact h h2
  have hN : ¬ (200 < name.utf8ByteSize ∨ name.utf8ByteSize < 2) := by omega
  unfold Customer.new
  rw [if_neg hE, if_neg hN]

theorem customer_new_email_err (id name email phone : String)
    (tn : Option TaxNumber) (addr : Address) (cb : String) (now : Nat)
    (h0 : 0 < email.utf8ByteSize)
    (h : ¬ strContains email '@' ∨ ¬ strContains email '.') :
    Customer.new id name email phone tn addr cb now =
      .error (.badRequest "Nem megfelelő email cím. Legalább @ jelet és pontot kell tartalmaznia") := by
  unfold Customer.new
  rw [if_pos ⟨h0, h⟩]

theorem customer_new_name_err (id name email phone : String)
    (tn : Option TaxNumber) (addr : Address) (cb : String) (now : Nat)
    (hemail : email.utf8ByteSize = 0 ∨ (strContains email '@' ∧ strContains email '.'))
    (hname : name.utf8ByteSize < 2 ∨ 200 < name.utf8ByteSize) :
    Customer.new id name email phone tn addr cb now =
      .error (.badRequest "A név hosszúsága legalább 2 max 200 karakter") := by
  have hE : ¬ (0 < email.utf8ByteSize ∧
      (¬ strContains email '@' ∨ ¬ strContains email '.')) := by
    rcases hemail with h | ⟨h1, h2⟩
    · rintro ⟨hpos, _⟩; omega
    · rintro ⟨_, h | h⟩
      · exact h h1
      · exact h h2
  unfold Customer.new
  rw [if_neg hE, if_pos (by omega)]

theorem resolveTax_empty (validate : String → Except ServiceError TaxNumber)
    (raw : String) (h : raw.utf8ByteSize = 0) :
    resolveTax validate raw = .ok none := by
  unfold resolveTax
  rw [if_neg (by omega)]

theorem resolveTax_fail (validate : String → Except ServiceError TaxNumber)
    (raw : String) (e : ServiceError) (h0 : 0 < raw.utf8ByteSize)
    (h : validate raw = .error e) :
    resolveTax validate raw = .error e := by
  unfold resolveTax
  rw [if_pos h0, h]

/-- A successful `update_by_id`, fully characterized: with the tax
number resolved to `tn`, an address present, the record found, and a
request email that is empty or passes `set_email`, the stored record is
replaced by `updatedCustomer` and returned. -/
theorem update_success_eq (validate : String → Except ServiceError TaxNumber)
    (store : List Customer) (u : CustomerUpdateObj) (tn : Option TaxNumber)
    (addr : Address) (c : Customer)
    (htax : resolveTax validate u.tax_number = .ok tn)
    (haddr : u.address = some addr)
    (hfind : findById store u.id = some c)
    (hemail : u.email.utf8ByteSize = 0 ∨
      (strContains u.email '@' ∧ strContains u.email '.' ∧ 5 < u.email.utf8ByteSize)) :
    update_by_id validate store u =
      (replaceById store u.id (updatedCustomer c u tn addr),
       .ok (updatedCustomer c u tn addr)) := by
  unfold update_by_id
  simp only [htax, haddr, hfind]
  rcases hemail with h | ⟨h1, h2, h3⟩
  · rw [set_email_empty _ _ h]
    simp only [updatedCustomer, Customer.set_name, Customer.set_phone,
      Customer.set_tax_number, Customer.set_address, h]
    rw [if_neg (by omega)]
  · rw [set_email_valid _ _ h1 h2 h3]
    simp only [updatedCustomer, Customer.set_name, Customer.set_phone,
      Customer.set_tax_number, Customer.set_address]
    rw [if_pos (by omega)]

/-- An `update_by_id` whose request email is non-empty and rejected by
`set_email`: the error is returned, and the stored record is replaced by
the old record with only the name already overwritten. -/
theorem update_email_fail_eq (validate : String → Except ServiceError TaxNumber)
    (store : List Customer) (u : CustomerUpdateObj) (tn : Option TaxNumber)
    (addr : Address) (c : Customer)
    (htax : resolveTax validate u.tax_number = .ok tn)
    (haddr : u.address = some addr)
    (hfind : findById store u.id = some c)
    (h0 : 0 < u.email.utf8ByteSize)
    (hbad : ¬ (strContains u.email '@' ∧ strContains u.email '.' ∧ 5 < u.email.utf8ByteSize)) :
    update_by_id validate store u =
      (replaceById store u.id { c with name := u.name },
       .error (.badRequest "Rossz email formátum. Legyen legalább 5 karakter, és tartalmazzon @ jelet és pontot")) := by
  unfold update_by_id
  simp only [htax, haddr, hfind]
  rw [set_email_invalid _ _ h0 hbad]
  rfl

/-- Replacing the first record with id `i` by a customer that agrees
with the found record on id, creation date and creator relates old and
new store pointwise by `frameEq`. -/
theorem findById_replace_forall2 (i : String) (c c2 : Customer)
    (h : frameEq c c2) :
    ∀ store : List Customer, findById store i = some c →
      List.Forall₂ frameEq store (replaceById store i c2) := by
  intro store
  induction store with
  | nil => intro hf; simp [findById] at hf
  | cons x rest ih =>
      intro hf
      by_cases hx : (x.id == i) = true
      · have hxc : x = c := by
          simp only [findById, List.find?, hx, Option.some.injEq] at hf
          exact hf
        subst hxc
        unfold replaceById
        rw [if_pos hx]
        exact List.Forall₂.cons h (List.forall₂_same.mpr fun y _ => ⟨rfl, rfl, rfl⟩)
      · have hx2 : (x.id == i) = false := by simpa using hx
        have hf2 : findById rest i = some c := by
          simp only [findById, List.find?, hx2] at hf
          exact hf
        unfold replaceById
        rw [if_neg hx]
        exact List.Forall₂.cons ⟨rfl, rfl, rfl⟩ (ih hf2)

theorem set_email_frame (c c2 : Customer) (email : String)
    (h : c.set_email email = .ok c2) :
    c2.id = c.id ∧ c2.date_created = c.date_created ∧ c2.created_by = c.created_by := by
  unfold Customer.set_email at h
  split at h
  · split at h
    · injection h with h
      subst h
      exact ⟨rfl, rfl, rfl⟩
    · cases h
  · injection h with h
    subst h
    exact ⟨rfl, rfl, rfl⟩

theorem customer_new_fields (id name email phone : String) (tn : Option TaxNumber)
    (addr : Address) (cb : String) (now : Nat) (c : Customer)
    (h : Customer.new id name email phone tn addr cb now = .ok c) :
    c = { id := id, name := name, email := email, phone := phone,
          tax_number := tn, address := addr, date_created := now,
          created_by := cb, has_user := false, users := [] } := by
  unfold Customer.new at h
  split at h
  · cases h
  · split at h
    · cases h
    · exact (Except.ok.inj h).symm

/-! Claim theorems. -/

/-- Claim C7 (confirmed): for construction inputs satisfying every
validation rule (email empty or containing `@` and `.`, name length in
[2, 200]), `Customer::new` succeeds and the returned entity's id, name,
email, phone, tax number, address and created_by equal the inputs
exactly, with no normalization. -/
theorem c7_construct_exact (id name email phone : String) (tn : Option TaxNumber)
    (addr : Address) (cb : String) (now : Nat)
    (hemail : email.utf8ByteSize = 0 ∨ (strContains email '@' ∧ strContains email '.'))
    (hmin : 2 ≤ name.utf8ByteSize) (hmax : name.utf8ByteSize ≤ 200) :
    Customer.new id name email phone tn addr cb now =
      .ok { id := id, name := name, email := email, phone := phone,
            tax_number := tn, address := addr, date_created := now,
            created_by := cb, has_user := false, users := [] } :=
  customer_new_ok id name email phone tn addr cb now hemail hmin hmax

/-- Witness for C7 at a concrete valid input. -/
theorem c7_construct_exact_witness :
    Customer.new "abc" "Jane Doe" "j@doe.hu" "p" none
        (Address.new "1000" "City" "Main 1") "u1" 7 =
      .ok { id := "abc", name := "Jane Doe", email := "j@doe.hu", phone := "p",
            tax_number := none, address := Address.new "1000" "City" "Main 1",
            date_created := 7, created_by := "u1", has_user := false, users := [] } :=
  c7_construct_exact "abc" "Jane Doe" "j@doe.hu" "p" none
    (Address.new "1000" "City" "Main 1") "u1" 7
    (Or.inr ⟨by decide, by decide⟩) (by decide) (by decide)

/-- Claim C10 (confirmed): every customer accepted by `Customer::new`
has `has_user = false` and an empty `users` list, whatever the inputs. -/
theorem c10_fresh_flags (id name email phone : String) (tn : Option TaxNumber)
    (addr : Address) (cb : String) (now : Nat) (c : Customer)
    (h : Customer.new id name email phone tn addr cb now = .ok c) :
    c.has_user = false ∧ c.users = [] := by
  rw [customer_new_fields id name email phone tn addr cb now c h]
  exact ⟨rfl, rfl⟩

/-- Witness for C10 at a concrete accepted input. -/
theorem c10_fresh_flags_witness :
    ({ id := "i", name := "Jane Doe", email := "", phone := "",
       tax_number := none, address := Address.new "z" "l" "a",
       date_created := 0, created_by := "u", has_user := false,
       users := [] } : Customer).has_user = false ∧
    ({ id := "i", name := "Jane Doe", email := "", phone := "",
       tax_number := none, address := Address.new "z" "l" "a",
       date_created := 0, created_by := "u", has_user := false,
       users := [] } : Customer).users = [] :=
  c10_fresh_flags "i" "Jane Doe" "" "" none (Address.new "z" "l" "a") "u" 0
    _ (by decide)

/-- Counterexample to C5 as stated: the non-empty email `"a@."` has
only 3 bytes (not longer than 5 characters), yet `Customer::new`
accepts it — construction checks only for `@` and `.`. -/
theorem c5_counterexample :
    "a@." ≠ "" ∧
    ¬ 5 < ("a@." : String).utf8ByteSize ∧
    Customer.new "i" "John" "a@." "" none (Address.new "z" "l" "a") "u" 0 =
      .ok { id := "i", name := "John", email := "a@.", phone := "",
            tax_number := none, address := Address.new "z" "l" "a",
            date_created := 0, created_by := "u", has_user := false,
            users := [] } :=
  ⟨by decide, by decide, by decide⟩

/-- Claim C5 (amended): with a valid name, construction accepts an email
iff it is empty or contains at least one `@` and at least one `.`; there
is no length requirement at construction (the longer-than-5 rule exists
only in `set_email`). The empty email is always accepted. -/
theorem c5_email_rule_amended (id name email phone : String) (tn : Option TaxNumber)
    (addr : Address) (cb : String) (now : Nat)
    (hmin : 2 ≤ name.utf8ByteSize) (hmax : name.utf8ByteSize ≤ 200) :
    (∃ c, Customer.new id name email phone tn addr cb now = .ok c) ↔
      (email.utf8ByteSize = 0 ∨ (strContains email '@' ∧ strContains email '.')) := by
  constructor
  · rintro ⟨c, hc⟩
    by_contra hno
    have h0 : 0 < email.utf8ByteSize :=
      Nat.pos_of_ne_zero (fun hz => hno (Or.inl hz))
    have hor : ¬ strContains email '@' ∨ ¬ strContains email '.' := by
      by_cases hA : strContains email '@' = true
      · by_cases hB : strContains email '.' = true
        · exact absurd (Or.inr ⟨hA, hB⟩) hno
        · exact Or.inr hB
      · exact Or.inl hA
    rw [customer_new_email_err id name email phone tn addr cb now h0 hor] at hc
    cases hc
  · intro he
    exact ⟨_, customer_new_ok id name email phone tn addr cb now he hmin hmax⟩

/-- Witness for the amended C5 at concrete inputs: an accepted empty
email and a rejected `@`-less email. -/
theorem c5_email_rule_amended_witness :
    (∃ c, Customer.new "i" "John" "" "" none (Address.new "z" "l" "a") "u" 0 = .ok c) ∧
    ¬ (∃ c, Customer.new "i" "John" "nomail" "" none (Address.new "z" "l" "a") "u" 0 = .ok c) :=
  ⟨(c5_email_rule_amended "i" "John" "" "" none (Address.new "z" "l" "a") "u" 0
      (by decide) (by decide)).mpr (Or.inl (by decide)),
   fun h =>
    (by decide :
      ¬ (("nomail" : String).utf8ByteSize = 0 ∨
        (strContains "nomail" '@' ∧ strContains "nomail" '.')))
    ((c5_email_rule_amended "i" "John" "nomail" "" none (Address.new "z" "l" "a") "u" 0
      (by decide) (by decide)).mp h)⟩

/-- Counterexample to C4 as stated: construction accepts `"a@."` while
`set_email` rejects it — the two email predicates are not equivalent
(`set_email` additionally requires more than 5 bytes). -/
theorem c4_counterexample :
    Customer.new "i" "John" "a@." "p" none (Address.new "z" "l" "a") "u" 0 =
      .ok { id := "i", name := "John", email := "a@.", phone := "p",
            tax_number := none, address := Address.new "z" "l" "a",
            date_created := 0, created_by := "u", has_user := false,
            users := [] } ∧
    sampleStored.set_email "a@." =
      .error (.badRequest "Rossz email formátum. Legyen legalább 5 karakter, és tartalmazzon @ jelet és pontot") :=
  ⟨by decide, by decide⟩

/-- Claim C4 (amended): `set_email` is stricter than construction — a
non-empty email is accepted iff it contains `@` and `.` and is longer
than 5 bytes (construction has no length bound); on acceptance of a
non-empty email the field is replaced; an empty email is accepted
without modifying the entity; on rejection the entity is unchanged and
an error is returned. -/
theorem c4_set_email_amended (c : Customer) (email : String) :
    (email.utf8ByteSize = 0 → c.set_email email = .ok c) ∧
    (0 < email.utf8ByteSize → strContains email '@' → strContains email '.' →
      5 < email.utf8ByteSize → c.set_email email = .ok { c with email := email }) ∧
    (0 < email.utf8ByteSize →
      ¬ (strContains email '@' ∧ strContains email '.' ∧ 5 < email.utf8ByteSize) →
      c.set_email email =
        .error (.badRequest "Rossz email formátum. Legyen legalább 5 karakter, és tartalmazzon @ jelet és pontot")) :=
  ⟨fun h => set_email_empty c email h,
   fun _ h1 h2 h3 => set_email_valid c email h1 h2 h3,
   fun h0 h => set_email_invalid c email h0 h⟩

/-- Witness for the amended C4 at concrete inputs covering all three
branches. -/
theorem c4_set_email_amended_witness :
    sampleStored.set_email "" = .ok sampleStored ∧
    sampleStored.set_email "new@mail.hu" =
      .ok { sampleStored with email := "new@mail.hu" } ∧
    sampleStored.set_email "bad" =
      .error (.badRequest "Rossz email formátum. Legyen legalább 5 karakter, és tartalmazzon @ jelet és pontot") :=
  ⟨(c4_set_email_amended sampleStored "").1 (by decide),
   (c4_set_email_amended sampleStored "new@mail.hu").2.1
     (by decide) (by decide) (by decide) (by decide),
   (c4_set_email_amended sampleStored "bad").2.2 (by decide) (by decide)⟩

/-- Counterexample to C1 as stated: updating the stored customer with an
invalid email is rejected, yet the stored record is no longer the
original — its name has already been overwritten. -/
theorem c1_counterexample :
    (update_by_id noTax [sampleStored]
        { id := "c1", name := "New Name", email := "bad", phone := "2",
          tax_number := "", address := some (Address.new "z2" "l2" "a2") }).2 =
      .error (.badRequest "Rossz email formátum. Legyen legalább 5 karakter, és tartalmazzon @ jelet és pontot") ∧
    (update_by_id noTax [sampleStored]
        { id := "c1", name := "New Name", email := "bad", phone := "2",
          tax_number := "", address := some (Address.new "z2" "l2" "a2") }).1 =
      [{ sampleStored with name := "New Name" }] ∧
    [{ sampleStored with name := "New Name" }] ≠ [sampleStored] :=
  ⟨by decide, by decide, by decide⟩

/-- Claim C1 (amended): the update is not all-or-nothing. When the
request email is non-empty and fails `set_email`'s validation, the
update returns the email error and the stored record keeps its old
email, phone, tax number and address — but its name has already been
replaced by the requested name, because `set_name` runs before
`set_email`. -/
theorem c1_update_not_atomic_amended
    (validate : String → Except ServiceError TaxNumber)
    (store : List Customer) (u : CustomerUpdateObj) (tn : Option TaxNumber)
    (addr : Address) (c : Customer)
    (htax : resolveTax validate u.tax_number = .ok tn)
    (haddr : u.address = some addr)
    (hfind : findById store u.id = some c)
    (h0 : 0 < u.email.utf8ByteSize)
    (hbad : ¬ (strContains u.email '@' ∧ strContains u.email '.' ∧
      5 < u.email.utf8ByteSize)) :
    update_by_id validate store u =
      (replaceById store u.id { c with name := u.name },
       .error (.badRequest "Rossz email formátum. Legyen legalább 5 karakter, és tartalmazzon @ jelet és pontot")) :=
  update_email_fail_eq validate store u tn addr c htax haddr hfind h0 hbad

/-- Witness for the amended C1 at a concrete store and request. -/
theorem c1_update_not_atomic_amended_witness :
    update_by_id noTax [sampleStored]
        { id := "c1", name := "New Name", email := "bad", phone := "2",
          tax_number := "", address := some (Address.new "z2" "l2" "a2") } =
      (replaceById [sampleStored] "c1" { sampleStored with name := "New Name" },
       .error (.badRequest "Rossz email formátum. Legyen legalább 5 karakter, és tartalmazzon @ jelet és pontot")) :=
  c1_update_not_atomic_amended noTax [sampleStored]
    { id := "c1", name := "New Name", email := "bad", phone := "2",
      tax_number := "", address := some (Address.new "z2" "l2" "a2") }
    none (Address.new "z2" "l2" "a2") sampleStored
    (by decide) rfl (by decide) (by decide) (by decide)

/-- Counterexample to C6 as stated: an update carrying the empty email
string succeeds, but the stored record's email is the old value, not the
supplied empty string — `set_email` skips empty input instead of
replacing the field. -/
theorem c6_counterexample :
    (update_by_id noTax [sampleStored]
        { id := "c1", name := "New Name", email := "", phone := "2",
          tax_number := "", address := some (Address.new "z2" "l2" "a2") }).2 =
      .ok { sampleStored with
              name := "New Name", email := "old@mail.hu", phone := "2",
              tax_number := none, address := Address.new "z2" "l2" "a2" } ∧
    ("old@mail.hu" : String) ≠ "" :=
  ⟨by decide, by decide⟩

/-- Claim C6 (amended): a successful update replaces name, phone, tax
number and address with the requested values, and replaces the email
only when the supplied email is non-empty; an empty supplied email
leaves the stored email at its prior value. -/
theorem c6_update_replacement_amended
    (validate : String → Except ServiceError TaxNumber)
    (store : List Customer) (u : CustomerUpdateObj) (tn : Option TaxNumber)
    (addr : Address) (c : Customer)
    (htax : resolveTax validate u.tax_number = .ok tn)
    (haddr : u.address = some addr)
    (hfind : findById store u.id = some c)
    (hemail : u.email.utf8ByteSize = 0 ∨
      (strContains u.email '@' ∧ strContains u.email '.' ∧ 5 < u.email.utf8ByteSize)) :
    update_by_id validate store u =
      (replaceById store u.id (updatedCustomer c u tn addr),
       .ok (updatedCustomer c u tn addr)) ∧
    (updatedCustomer c u tn addr).name = u.name ∧
    (updatedCustomer c u tn addr).phone = u.phone ∧
    (updatedCustomer c u tn addr).tax_number = tn ∧
    (updatedCustomer c u tn addr).address =
      Address.new addr.zip addr.location addr.address ∧
    (updatedCustomer c u tn addr).email =
      (if 0 < u.email.utf8ByteSize then u.email else c.email) :=
  ⟨update_success_eq validate store u tn addr c htax haddr hfind hemail,
   rfl, rfl, rfl, rfl, rfl⟩

/-- Witness for the amended C6 at a concrete store and request with a
non-empty email. -/
theorem c6_update_replacement_amended_witness :
    update_by_id noTax [sampleStored]
        { id := "c1", name := "N2", email := "new@mail.hu", phone := "2",
          tax_number := "", address := some (Address.new "z2" "l2" "a2") } =
      (replaceById [sampleStored] "c1"
         (updatedCustomer sampleStored
           { id := "c1", name := "N2", email := "new@mail.hu", phone := "2",
             tax_number := "", address := some (Address.new "z2" "l2" "a2") }
           none (Address.new "z2" "l2" "a2")),
       .ok (updatedCustomer sampleStored
           { id := "c1", name := "N2", email := "new@mail.hu", phone := "2",
             tax_number := "", address := some (Address.new "z2" "l2" "a2") }
           none (Address.new "z2" "l2" "a2"))) :=
  (c6_update_replacement_amended noTax [sampleStored]
    { id := "c1", name := "N2", email := "new@mail.hu", phone := "2",
      tax_number := "", address := some (Address.new "z2" "l2" "a2") }
    none (Address.new "z2" "l2" "a2") sampleStored
    (by decide) rfl (by decide) (Or.inr ⟨by decide, by decide, by decide⟩)).1

/-- Claim C9 (confirmed): whatever the update request and whether it
succeeds or fails, every record of the store keeps its `id`,
`date_created` and `created_by` across `update_by_id` — those fields are
immutable after creation. -/
theorem c9_update_frame (validate : String → Except ServiceError TaxNumber)
    (store : List Customer) (u : CustomerUpdateObj) :
    List.Forall₂ frameEq store (update_by_id validate store u).1 := by
  cases htax : resolveTax validate u.tax_number with
  | error e =>
      simp only [update_by_id, htax]
      exact List.forall₂_same.mpr fun x _ => ⟨rfl, rfl, rfl⟩
  | ok tn =>
      cases haddr : u.address with
      | none =>
          simp only [update_by_id, htax, haddr]
          exact List.forall₂_same.mpr fun x _ => ⟨rfl, rfl, rfl⟩
      | some addr =>
          cases hfind : findById store u.id with
          | none =>
              simp only [update_by_id, htax, haddr, hfind]
              exact List.forall₂_same.mpr fun x _ => ⟨rfl, rfl, rfl⟩
          | some c =>
              cases hmail : (c.set_name u.name).set_email u.email with
              | error e =>
                  simp only [update_by_id, htax, haddr, hfind, hmail]
                  exact findById_replace_forall2 u.id c (c.set_name u.name)
                    ⟨rfl, rfl, rfl⟩ store hfind
              | ok c2 =>
                  simp only [update_by_id, htax, haddr, hfind, hmail]
                  obtain ⟨h1, h2, h3⟩ := set_email_frame _ _ _ hmail
                  exact findById_replace_forall2 u.id c
                    (((c2.set_phone u.phone).set_tax_number tn).set_address
                      (Address.new addr.zip addr.location addr.address))
                    ⟨h1, h2, h3⟩ store hfind

/-- Witness for C9 at a concrete store and request (C9 has no
propositional hypothesis; this instance just evaluates it). -/
theorem c9_update_frame_witness :
    List.Forall₂ frameEq [sampleStored]
      (update_by_id noTax [sampleStored]
        { id := "c1", name := "N2", email := "", phone := "2",
          tax_number := "", address := some (Address.new "z2" "l2" "a2") }).1 :=
  c9_update_frame noTax [sampleStored]
    { id := "c1", name := "N2", email := "", phone := "2",
      tax_number := "", address := some (Address.new "z2" "l2" "a2") }

theorem create_ok_tax (validate : String → Except ServiceError TaxNumber)
    (candidates : List String) (store : List Customer) (u : CreateNewRequest)
    (now : Nat) (tn : Option TaxNumber) (store2 : List Customer) (c : Customer)
    (htax : resolveTax validate u.tax_number = .ok tn)
    (h : create_new_customer validate candidates store u now = (store2, .ok c)) :
    c.tax_number = tn := by
  unfold create_new_customer at h
  simp only [htax] at h
  cases hpick : pickId store candidates with
  | none =>
      simp only [hpick, Prod.mk.injEq] at h
      obtain ⟨-, h2⟩ := h
      simp at h2
  | some id =>
      simp only [hpick] at h
      cases hnew : Customer.new id u.name u.email u.phone tn
          (Address.new u.zip u.location u.address) u.created_by now with
      | error e =>
          simp only [hnew, Prod.mk.injEq] at h
          obtain ⟨-, h2⟩ := h
          simp at h2
      | ok nc =>
          simp only [hnew] at h
          cases hins : insertCustomer store nc with
          | error e =>
              simp only [hins, Prod.mk.injEq] at h
              obtain ⟨-, h2⟩ := h
              simp at h2
          | ok s2 =>
              simp only [hins, Prod.mk.injEq] at h
              obtain ⟨-, h2⟩ := h
              have hnc : nc = c := Except.ok.inj h2
              subst hnc
              rw [customer_new_fields id u.name u.email u.phone tn
                (Address.new u.zip u.location u.address) u.created_by now nc hnew]

theorem create_tax_fail (validate : String → Except ServiceError TaxNumber)
    (candidates : List String) (store : List Customer) (u : CreateNewRequest)
    (now : Nat) (e : ServiceError)
    (h0 : 0 < u.tax_number.utf8ByteSize)
    (hv : validate u.tax_number = .error e) :
    create_new_customer validate candidates store u now = (store, .error e) := by
  unfold create_new_customer
  rw [resolveTax_fail validate u.tax_number e h0 hv]

theorem update_ok_tax (validate : String → Except ServiceError TaxNumber)
    (store : List Customer) (u : CustomerUpdateObj) (tn : Option TaxNumber)
    (store2 : List Customer) (c : Customer)
    (htax : resolveTax validate u.tax_number = .ok tn)
    (h : update_by_id validate store u = (store2, .ok c)) :
    c.tax_number = tn := by
  unfold update_by_id at h
  simp only [htax] at h
  cases haddr : u.address with
  | none =>
      simp only [haddr, Prod.mk.injEq] at h
      obtain ⟨-, h2⟩ := h
      simp at h2
  | some addr =>
      simp only [haddr] at h
      cases hfind : findById store u.id with
      | none =>
          simp only [hfind, Prod.mk.injEq] at h
          obtain ⟨-, h2⟩ := h
          simp at h2
      | some cf =>
          simp only [hfind] at h
          cases hmail : (cf.set_name u.name).set_email u.email with
          | error e =>
              simp only [hmail, Prod.mk.injEq] at h
              obtain ⟨-, h2⟩ := h
              simp at h2
          | ok c2 =>
              simp only [hmail, Prod.mk.injEq] at h
              obtain ⟨-, h2⟩ := h
              have hc : ((c2.set_phone u.phone).set_tax_number tn).set_address
                  (Address.new addr.zip addr.location addr.address) = c :=
                Except.ok.inj h2
              rw [← hc]
              rfl

theorem update_tax_fail (validate : String → Except ServiceError TaxNumber)
    (store : List Customer) (u : CustomerUpdateObj) (e : ServiceError)
    (h0 : 0 < u.tax_number.utf8ByteSize)
    (hv : validate u.tax_number = .error e) :
    update_by_id validate store u = (store, .error e) := by
  unfold update_by_id
  rw [resolveTax_fail validate u.tax_number e h0 hv]

/-- Claim C8 (confirmed): both in create and in update, an empty raw tax
number yields a customer whose tax number is `none`; a non-empty raw tax
number goes to the external validator, whose failure becomes the
operation's error with the store unchanged (no record created or
mutated). -/
theorem c8_tax_number_wiring (validate : String → Except ServiceError TaxNumber)
    (candidates : List String) (store : List Customer) (u : CreateNewRequest)
    (uu : CustomerUpdateObj) (now : Nat) :
    (u.tax_number.utf8ByteSize = 0 →
      ∀ store2 c, create_new_customer validate candidates store u now =
        (store2, .ok c) → c.tax_number = none) ∧
    (∀ e, 0 < u.tax_number.utf8ByteSize → validate u.tax_number = .error e →
      create_new_customer validate candidates store u now = (store, .error e)) ∧
    (uu.tax_number.utf8ByteSize = 0 →
      ∀ store2 c, update_by_id validate store uu = (store2, .ok c) →
        c.tax_number = none) ∧
    (∀ e, 0 < uu.tax_number.utf8ByteSize → validate uu.tax_number = .error e →
      update_by_id validate store uu = (store, .error e)) :=
  ⟨fun h0 store2 c hc =>
     create_ok_tax validate candidates store u now none store2 c
       (resolveTax_empty validate u.tax_number h0) hc,
   fun e h0 hv => create_tax_fail validate candidates store u now e h0 hv,
   fun h0 store2 c hc =>
     update_ok_tax validate store uu none store2 c
       (resolveTax_empty validate uu.tax_number h0) hc,
   fun e h0 hv => update_tax_fail validate store uu e h0 hv⟩

/-- Witness for C8 at concrete inputs exercising all four parts. -/
theorem c8_tax_number_wiring_witness :
    ({ id := "x", name := "Jane Doe", email := "", phone := "",
       tax_number := none, address := Address.new "z" "l" "a",
       date_created := 0, created_by := "u1", has_user := false,
       users := [] } : Customer).tax_number = none ∧
    create_new_customer noTax ["x"] []
        { name := "Jane Doe", email := "", phone := "", tax_number := "t1",
          zip := "z", location := "l", address := "a", created_by := "u1" } 0 =
      ([], .error (.badRequest "tax")) ∧
    (updatedCustomer sampleStored
        { id := "c1", name := "N2", email := "", phone := "2",
          tax_number := "", address := some (Address.new "z2" "l2" "a2") }
        none (Address.new "z2" "l2" "a2")).tax_number = none ∧
    update_by_id noTax [sampleStored]
        { id := "c1", name := "N2", email := "", phone := "2",
          tax_number := "t1", address := some (Address.new "z2" "l2" "a2") } =
      ([sampleStored], .error (.badRequest "tax")) :=
  ⟨(c8_tax_number_wiring noTax ["x"] []
      { name := "Jane Doe", email := "", phone := "", tax_number := "",
        zip := "z", location := "l", address := "a", created_by := "u1" }
      { id := "c1", name := "N2", email := "", phone := "2",
        tax_number := "", address := some (Address.new "z2" "l2" "a2") } 0).1
     (by decide)
     [{ id := "x", name := "Jane Doe", email := "", phone := "",
        tax_number := none, address := Address.new "z" "l" "a",
        date_created := 0, created_by := "u1", has_user := false, users := [] }]
     { id := "x", name := "Jane Doe", email := "", phone := "",
       tax_number := none, address := Address.new "z" "l" "a",
       date_created := 0, created_by := "u1", has_user := false, users := [] }
     (by decide),
   (c8_tax_number_wiring noTax ["x"] []
      { name := "Jane Doe", email := "", phone := "", tax_number := "t1",
        zip := "z", location := "l", address := "a", created_by := "u1" }
      { id := "c1", name := "N2", email := "", phone := "2",
        tax_number := "", address := some (Address.new "z2" "l2" "a2") } 0).2.1
     (.badRequest "tax") (by decide) (by decide),
   (c8_tax_number_wiring noTax ["x"] [sampleStored]
      { name := "Jane Doe", email := "", phone := "", tax_number := "",
        zip := "z", location := "l", address := "a", created_by := "u1" }
      { id := "c1", name := "N2", email := "", phone := "2",
        tax_number := "", address := some (Address.new "z2" "l2" "a2") } 0).2.2.1
     (by decide)
     (replaceById [sampleStored] "c1"
       (updatedCustomer sampleStored
         { id := "c1", name := "N2", email := "", phone := "2",
           tax_number := "", address := some (Address.new "z2" "l2" "a2") }
         none (Address.new "z2" "l2" "a2")))
     (updatedCustomer sampleStored
       { id := "c1", name := "N2", email := "", phone := "2",
         tax_number := "", address := some (Address.new "z2" "l2" "a2") }
       none (Address.new "z2" "l2" "a2"))
     (by decide),
   (c8_tax_number_wiring noTax ["x"] [sampleStored]
      { name := "Jane Doe", email := "", phone := "", tax_number := "",
        zip := "z", location := "l", address := "a", created_by := "u1" }
      { id := "c1", name := "N2", email := "", phone := "2",
        tax_number := "t1", address := some (Address.new "z2" "l2" "a2") } 0).2.2.2
     (.badRequest "tax") (by decide) (by decide)⟩

/-- Counterexample to C3 as stated: (1) with the length-1 name `"A"` and
the invalid email `"x"`, construction fails with the *email* error, not
a name-length error (email is checked first); (2) an update carrying the
length-1 name `"A"` *succeeds* — the update path never validates the
name — and the stored record is changed, its name becoming `"A"`. -/
theorem c3_counterexample :
    Customer.new "i" "A" "x" "" none (Address.new "z" "l" "a") "u" 0 =
      .error (.badRequest "Nem megfelelő email cím. Legalább @ jelet és pontot kell tartalmaznia") ∧
    update_by_id noTax [sampleStored]
        { id := "c1", name := "A", email := "new@mail.hu", phone := "2",
          tax_number := "", address := some (Address.new "z2" "l2" "a2") } =
      ([{ sampleStored with
            name := "A", email := "new@mail.hu", phone := "2",
            address := Address.new "z2" "l2" "a2" }],
       .ok { sampleStored with
               name := "A", email := "new@mail.hu", phone := "2",
               address := Address.new "z2" "l2" "a2" }) ∧
    ("A" : String).utf8ByteSize < 2 :=
  ⟨by decide, by decide, by decide⟩

/-- Claim C3 (amended): for a name of length below 2 or above 200,
construction fails, and the error is the name-length `BadRequest`
stating the bounds 2 and 200 whenever the email passes construction's
email check (the email is validated first). The update operation,
however, performs no name-length validation: whenever it succeeds, the
stored name is replaced by the requested name, whatever its length. -/
theorem c3_name_validation_amended :
    (∀ (id name email phone : String) (tn : Option TaxNumber) (addr : Address)
        (cb : String) (now : Nat),
      (name.utf8ByteSize < 2 ∨ 200 < name.utf8ByteSize) →
      (email.utf8ByteSize = 0 ∨ (strContains email '@' ∧ strContains email '.')) →
      Customer.new id name email phone tn addr cb now =
        .error (.badRequest "A név hosszúsága legalább 2 max 200 karakter")) ∧
    (∀ (validate : String → Except ServiceError TaxNumber)
        (store : List Customer) (u : CustomerUpdateObj)
        (tn : Option TaxNumber) (addr : Address) (c : Customer),
      resolveTax validate u.tax_number = .ok tn →
      u.address = some addr →
      findById store u.id = some c →
      (u.email.utf8ByteSize = 0 ∨
        (strContains u.email '@' ∧ strContains u.email '.' ∧
          5 < u.email.utf8ByteSize)) →
      ∃ c2, (update_by_id validate store u).2 = .ok c2 ∧ c2.name = u.name) := by
  constructor
  · intro id name email phone tn addr cb now hname hemail
    exact customer_new_name_err id name email phone tn addr cb now hemail hname
  · intro validate store u tn addr c htax haddr hfind hemail
    refine ⟨updatedCustomer c u tn addr, ?_, rfl⟩
    rw [update_success_eq validate store u tn addr c htax haddr hfind hemail]

/-- Witness for the amended C3 at the concrete length-1 name `"A"`:
construction rejects it with the bounds message, while an update
carrying it succeeds and stores it. -/
theorem c3_name_validation_amended_witness :
    Customer.new "i" "A" "" "" none (Address.new "z" "l" "a") "u" 0 =
      .error (.badRequest "A név hosszúsága legalább 2 max 200 karakter") ∧
    (∃ c2, (update_by_id noTax [sampleStored]
        { id := "c1", name := "A", email := "", phone := "2",
          tax_number := "", address := some (Address.new "z2" "l2" "a2") }).2 =
      .ok c2 ∧ c2.name = "A") :=
  ⟨c3_name_validation_amended.1 "i" "A" "" "" none (Address.new "z" "l" "a")
     "u" 0 (by decide) (Or.inl (by decide)),
   c3_name_validation_amended.2 noTax [sampleStored]
     { id := "c1", name := "A", email := "", phone := "2",
       tax_number := "", address := some (Address.new "z2" "l2" "a2") }
     none (Address.new "z2" "l2" "a2") sampleStored
     (by decide) rfl (by decide) (Or.inl (by decide))⟩

theorem stepCreate_nodup (store : List String) (p : CPhase)
    (h : store.Nodup) : (stepCreate store p).1.Nodup := by
  cases p with
  | run cs =>
      cases cs with
      | nil => exact h
      | cons c rest =>
          simp only [stepCreate]
          split
          · exact h
          · exact h
  | ins c =>
      simp only [stepCreate]
      split
      · exact h
      · next hc =>
          have hmem : c ∉ store := fun hm => hc (List.elem_iff.mpr hm)
          simp [List.nodup_append, h, hmem]
  | fin r => exact h

theorem stepCreate_mono (store : List String) (p : CPhase) (y : String)
    (hy : y ∈ store) : y ∈ (stepCreate store p).1 := by
  cases p with
  | run cs =>
      cases cs with
      | nil => exact hy
      | cons c rest =>
          simp only [stepCreate]
          split
          · exact hy
          · exact hy
  | ins c =>
      simp only [stepCreate]
      split
      · exact hy
      · exact List.mem_append_left _ hy
  | fin r => exact hy

theorem stepCreate_fin (store : List String) (p : CPhase) (i : String)
    (h : (stepCreate store p).2 = .fin (some i)) :
    p = .fin (some i) ∨ (i ∉ store ∧ i ∈ (stepCreate store p).1) := by
  cases p with
  | run cs =>
      cases cs with
      | nil => simp [stepCreate] at h
      | cons c rest =>
          simp only [stepCreate] at h
          split at h
          · simp at h
          · simp at h
  | ins c =>
      simp only [stepCreate] at h ⊢
      split at h
      · simp at h
      · next hc =>
          have hci : c = i := Option.some.inj (CPhase.fin.inj h)
          subst hci
          refine Or.inr ⟨fun hm => hc (List.elem_iff.mpr hm), ?_⟩
          rw [if_neg hc]
          exact List.mem_append_right _ (by simp)
  | fin r =>
      exact Or.inl (by rw [← h]; rfl)

theorem cinv_step (s : CState) (x : Bool) (h : cinv s) : cinv (cstep s x) := by
  obtain ⟨hnd, ha, hb, hab⟩ := h
  cases x with
  | true =>
      simp only [cstep, if_pos]
      refine ⟨stepCreate_nodup s.store s.a hnd, ?_, ?_, ?_⟩
      · intro i hi
        rcases stepCreate_fin s.store s.a i hi with hold | ⟨-, hnew⟩
        · exact stepCreate_mono s.store s.a i (ha i hold)
        · exact hnew
      · intro j hj
        exact stepCreate_mono s.store s.a j (hb j hj)
      · intro i j hi hj
        rcases stepCreate_fin s.store s.a i hi with hold | ⟨hfresh, -⟩
        · exact hab i j hold hj
        · intro hij
          exact hfresh (hij ▸ hb j hj)
  | false =>
      simp only [cstep, if_neg]
      refine ⟨stepCreate_nodup s.store s.b hnd, ?_, ?_, ?_⟩
      · intro i hi
        exact stepCreate_mono s.store s.b i (ha i hi)
      · intro j hj
        rcases stepCreate_fin s.store s.b j hj with hold | ⟨-, hnew⟩
        · exact stepCreate_mono s.store s.b j (hb j hold)
        · exact hnew
      · intro i j hi hj
        rcases stepCreate_fin s.store s.b j hj with hold | ⟨hfresh, -⟩
        · exact hab i j hi hold
        · intro hij
          exact hfresh (hij ▸ ha i hi)

theorem cinv_run (sched : List Bool) :
    ∀ s : CState, cinv s → cinv (crun s sched) := by
  induction sched with
  | nil => intro s h; exact h
  | cons x xs ih => intro s h; exact ih (cstep s x) (cinv_step s x h)

/-- Counterexample to C2 as stated: both creates draw the candidate
`"x"` first. Under the arrival order A-check, B-check, A-insert,
B-insert, the source's two-critical-section create (`crun`) leaves task
B failed with no identifier assigned — its insert hit the duplicate-key
rejection after its availability check had already passed — while the
spec's atomic check-and-insert design (`crunAtomic`) on the same inputs
gives both creates distinct identifiers. The check and the insert are
therefore not inside one critical section. -/
theorem c2_counterexample :
    crun { store := [], a := .run ["x"], b := .run ["x", "y"] }
        [true, false, true, false] =
      { store := ["x"], a := .fin (some "x"), b := .fin none } ∧
    crunAtomic { store := [], a := .run ["x"], b := .run ["x", "y"] }
        [true, false, true, false] =
      { store := ["x", "y"], a := .fin (some "x"), b := .fin (some "y") } :=
  ⟨by decide, by decide⟩

/-- Claim C2 (amended): the availability check and the insert run in two
separate critical sections (one lock acquisition each), so a concurrent
create may fail on the duplicate-key rejection instead of retrying; but
the stored identifiers always remain distinct, and whenever both
concurrent creates do succeed, the two assigned identifiers differ —
under every schedule. -/
theorem c2_distinct_ids_amended (store0 la lb : List String)
    (sched : List Bool) (h0 : store0.Nodup) :
    (crun { store := store0, a := .run la, b := .run lb } sched).store.Nodup ∧
    (∀ i j,
      (crun { store := store0, a := .run la, b := .run lb } sched).a =
        .fin (some i) →
      (crun { store := store0, a := .run la, b := .run lb } sched).b =
        .fin (some j) → i ≠ j) := by
  have hinv : cinv { store := store0, a := .run la, b := .run lb } := by
    refine ⟨h0, ?_, ?_, ?_⟩
    · intro i hi
      cases hi
    · intro j hj
      cases hj
    · intro i j hi hj
      cases hi
  have h := cinv_run sched { store := store0, a := .run la, b := .run lb } hinv
  exact ⟨h.1, h.2.2.2⟩

/-- Witness for the amended C2 at a concrete initial store, candidate
lists and schedule. -/
theorem c2_distinct_ids_amended_witness :
    (crun { store := ["z"], a := .run ["x"], b := .run ["x", "y"] }
        [true, false, true, false]).store.Nodup ∧
    (∀ i j,
      (crun { store := ["z"], a := .run ["x"], b := .run ["x", "y"] }
          [true, false, true, false]).a = .fin (some i) →
      (crun { store := ["z"], a := .run ["x"], b := .run ["x", "y"] }
          [true, false, true, false]).b = .fin (some j) → i ≠ j) :=
  c2_distinct_ids_amended ["z"] ["x"] ["x", "y"] [true, false, true, false]
    (by decide)
